import Mathlib

/-!
Shallow embedding of `src/FSAL/FSAL_VFS/fsal_lookup.c` (VFS FSAL lookup
operations of the nfs-ganesha-derived tree): `VFSFSAL_lookup`,
`VFSFSAL_lookupPath` and `VFSFSAL_lookupJunction`.

External collaborators (`fsal_internal_handle2fd`, `fstat`,
`fsal_internal_testAccess`, `vfs_name_by_handle_at`, `VFSFSAL_getattrs`,
`fsal_internal_Path2Handle`) are not defined in the reviewed sources; each
invocation's outcome is supplied by an environment record, and the embedded
functions replay the C control flow over those outcomes, recording a trace
of the calls they make and the state of the caller-visible output buffers.
The body of `VFSFSAL_lookup` is factored into one Lean function per source
paragraph (root case, open-parent/fstat, kind switch, directory body,
attribute tail), composed exactly as the C control flow chains them.

Null pointers are modelled as `Option`: `none` is a NULL argument, and for
the output parameters the `some` payload is the buffer's contents before
the call, so that frame effects on error paths are observable.
-/

/-- Error taxonomy members of `fsal_status_t.major` used by fsal_lookup.c.
`ERR_FSAL_IO_ERROR` stands for the source's generic underlying I/O error
code (spelt with a suffix here). -/
inductive fsal_errors_t where
  | ERR_FSAL_NO_ERROR
  | ERR_FSAL_FAULT
  | ERR_FSAL_STALE
  | ERR_FSAL_XDEV
  | ERR_FSAL_NOTDIR
  | ERR_FSAL_SERVERFAULT
  | ERR_FSAL_NOENT
  | ERR_FSAL_INVAL
  | ERR_FSAL_ACCESS
  | ERR_FSAL_IO_ERROR
deriving DecidableEq

/-- Status record returned by every FSAL operation: `Return(maj, min, idx)`
builds `{major := maj, minor := min}` (the function index is bookkeeping
only and is dropped). -/
structure fsal_status_t where
  major : fsal_errors_t
  minor : Nat

/-- The `FSAL_IS_ERROR` macro: a status is an error iff its major code is
not `ERR_FSAL_NO_ERROR`. -/
def FSAL_IS_ERROR (st : fsal_status_t) : Bool :=
  st.major != fsal_errors_t.ERR_FSAL_NO_ERROR

/-- Object kinds produced by `posix2fsal_type` (fsal_convert.c, outside the
reviewed sources) from `st_mode`; the closed variant of the data model. The
stat buffer in the embedding carries its already-classified kind, since the
lookup code only ever inspects `posix2fsal_type(buffstat.st_mode)`. -/
inductive fsal_nodetype where
  | FSAL_TYPE_FIFO
  | FSAL_TYPE_CHR
  | FSAL_TYPE_DIR
  | FSAL_TYPE_BLK
  | FSAL_TYPE_FILE
  | FSAL_TYPE_LNK
  | FSAL_TYPE_SOCK
  | FSAL_TYPE_XATTR
  | FSAL_TYPE_JUNCTION

/-- POSIX `ENOENT` errno value. -/
def ENOENT : Nat := 2

/-- POSIX `EACCES` errno value. -/
def EACCES : Nat := 13

/-- Modelled from the spec: `posix2fsal_error` (the ErrorMapper, defined in
fsal_convert.c which is not among the reviewed sources). The spec states
that the underlying "no such object" code from a name lookup is mapped to
NotFound, an access failure to AccessDenied, and any other
storage-primitive failure to an underlying I/O error kind. -/
def posix2fsal_error (errno : Nat) : fsal_errors_t :=
  if errno = ENOENT then fsal_errors_t.ERR_FSAL_NOENT
  else if errno = EACCES then fsal_errors_t.ERR_FSAL_ACCESS
  else fsal_errors_t.ERR_FSAL_IO_ERROR

/-- Fixed capacity constant `VFS_HANDLE_LEN` written into
`handle_bytes` before calling `vfs_name_by_handle_at` (header constant,
value immaterial to the control flow). -/
def VFS_HANDLE_LEN : Nat := 48

/-- Modelled from the spec: the single "attributes unavailable" marker bit
`FSAL_ATTR_RDATTR_ERR` (header constant; any fixed single bit). -/
def FSAL_ATTR_RDATTR_ERR : Nat := 1

/-- The `FSAL_CLEAR_MASK` macro: clears all attribute mask bits. -/
def FSAL_CLEAR_MASK (_mask : Nat) : Nat := 0

/-- The `FSAL_SET_MASK` macro: ors a bit into an attribute mask. -/
def FSAL_SET_MASK (mask bit : Nat) : Nat := mask ||| bit

/-- The underlying `vfs_file_handle_t`: a length field plus opaque handle
bytes. -/
structure vfs_file_handle_t where
  handle_bytes : Nat
  handle : List Nat
deriving DecidableEq

/-- `vfsfsal_handle_t`: the opaque object handle; its only part touched by
fsal_lookup.c is `data.vfs_handle`, embedded as the field
`data_vfs_handle`. -/
structure vfsfsal_handle_t where
  data_vfs_handle : vfs_file_handle_t
deriving DecidableEq

/-- `vfsfsal_op_context_t`: the authentication context; the only part read
by fsal_lookup.c is `export_context->root_handle`, embedded as the field
`export_context_root_handle`. -/
structure vfsfsal_op_context_t where
  export_context_root_handle : vfs_file_handle_t

/-- `fsal_name_t`: a single path component. -/
structure fsal_name_t where
  name : String

/-- `fsal_path_t`: an absolute path string. -/
structure fsal_path_t where
  path : String

/-- `fsal_attrib_list_t`: the caller's attribute request/result buffer; the
mask `asked_attributes` plus the rest of the structure collapsed into one
opaque field. -/
structure fsal_attrib_list_t where
  asked_attributes : Nat
  attr_values : Nat

/-- Stat buffer returned by `fstat`, carrying the classified object kind
(`posix2fsal_type(st_mode)`) and the inode number. -/
structure stat_buf where
  st_type : fsal_nodetype
  st_ino : Nat

/-- Observable calls made to the external collaborators, in program
order. -/
inductive FsEvent where
  | openHandle
  | fstatCall
  | testAccessCall
  | nameLookupCall
  | closeFd (fd : Nat)
  | getattrsCall
  | path2handleCall
deriving DecidableEq

/-- Outcomes of the external calls a single `VFSFSAL_lookup` invocation can
make. `errsv` is the value held by the local variable `errsv`, which the
source declares but never assigns (the fstat error path stores `errno` into
`errsrv` yet tests `errsv`), so it is stack garbage: an arbitrary input of
the model. -/
structure LookupEnv where
  handle2fd : Except fsal_status_t Nat
  fstat : Except Nat stat_buf
  errsv : Nat
  testAccess : fsal_status_t
  name_by_handle : Except Nat vfs_file_handle_t
  getattrs : fsal_status_t × fsal_attrib_list_t

/-- Result of an embedded call: the returned status, the final contents of
the caller's output-handle and attribute buffers (`none` when the pointer
was NULL), and the trace of external calls. -/
structure LookupResult where
  status : fsal_status_t
  object_handle : Option vfsfsal_handle_t
  object_attributes : Option fsal_attrib_list_t
  trace : List FsEvent

/-- The `Return(ERR_FSAL_FAULT, 0, ...)` exits of the NULL-argument sanity
checks: nothing has been called and no output buffer written. -/
def fault_result (poh : Option vfsfsal_handle_t)
    (poa : Option fsal_attrib_list_t) : LookupResult :=
  { status := { major := fsal_errors_t.ERR_FSAL_FAULT, minor := 0 },
    object_handle := poh, object_attributes := poa, trace := [] }

/-- The attribute-fetch transform of fsal_lookup.c lines 107-112 and
193-198: on `VFSFSAL_getattrs` failure the mask is cleared and the
`FSAL_ATTR_RDATTR_ERR` marker set; on success the fetched buffer is
kept. -/
def getattrsStep (env : LookupEnv) (_oa : fsal_attrib_list_t) :
    fsal_attrib_list_t :=
  if FSAL_IS_ERROR env.getattrs.1 then
    { env.getattrs.2 with
      asked_attributes :=
        FSAL_SET_MASK (FSAL_CLEAR_MASK env.getattrs.2.asked_attributes)
          FSAL_ATTR_RDATTR_ERR }
  else
    env.getattrs.2

/-- Shared successful tail of `VFSFSAL_lookup` (lines 104-115 for the root
case, 190-202 for the main case): if attributes were asked, one getattrs
call happens and its failure is non-fatal; the call then returns
`ERR_FSAL_NO_ERROR` with the new handle. `tr` is the trace accumulated so
far. -/
def lookup_attr_exit (env : LookupEnv) (ohNew : vfsfsal_handle_t)
    (poa : Option fsal_attrib_list_t) (tr : List FsEvent) : LookupResult :=
  match poa with
  | none =>
      { status := { major := fsal_errors_t.ERR_FSAL_NO_ERROR, minor := 0 },
        object_handle := some ohNew, object_attributes := none, trace := tr }
  | some oa =>
      { status := { major := fsal_errors_t.ERR_FSAL_NO_ERROR, minor := 0 },
        object_handle := some ohNew,
        object_attributes := some (getattrsStep env oa),
        trace := tr ++ [FsEvent.getattrsCall] }

/-- Root degenerate case of `VFSFSAL_lookup` (lines 96-116): the root
handle is copied from `p_context->export_context->root_handle` into the
output handle, then the attribute tail runs; always succeeds. -/
def lookup_root (env : LookupEnv) (ctx : vfsfsal_op_context_t)
    (oh : vfsfsal_handle_t) (poa : Option fsal_attrib_list_t) :
    LookupResult :=
  lookup_attr_exit env
    { oh with data_vfs_handle := ctx.export_context_root_handle } poa []

/-- The `fstat` failure exit of `VFSFSAL_lookup` (lines 132-140): the fd is
closed, then the branch tests the never-assigned `errsv` (not `errsrv`,
which holds the real errno): ENOENT in the garbage gives `ERR_FSAL_STALE`,
anything else is mapped through `posix2fsal_error`. -/
def lookup_fstat_error (errsv : Nat) (oh : vfsfsal_handle_t)
    (poa : Option fsal_attrib_list_t) (parentfd : Nat) : LookupResult :=
  if errsv = ENOENT then
    { status := { major := fsal_errors_t.ERR_FSAL_STALE, minor := errsv },
      object_handle := some oh, object_attributes := poa,
      trace := [FsEvent.openHandle, FsEvent.fstatCall,
                FsEvent.closeFd parentfd] }
  else
    { status := { major := posix2fsal_error errsv, minor := errsv },
      object_handle := some oh, object_attributes := poa,
      trace := [FsEvent.openHandle, FsEvent.fstatCall,
                FsEvent.closeFd parentfd] }

/-- The write of line 177: `p_object_handle->data.vfs_handle.handle_bytes =
VFS_HANDLE_LEN`, performed before `vfs_name_by_handle_at` is called. -/
def set_handle_len (oh : vfsfsal_handle_t) : vfsfsal_handle_t :=
  { oh with data_vfs_handle :=
      { oh.data_vfs_handle with handle_bytes := VFS_HANDLE_LEN } }

/-- Directory body of `VFSFSAL_lookup` (lines 169-202): the traversal
access check (whose error exit at lines 171-172 returns WITHOUT closing
`parentfd`), the `handle_bytes` write, `vfs_name_by_handle_at` (failure
mapped through `posix2fsal_error` on the real saved errno `errsrv`, after
closing the fd), and on success the close and the attribute tail. -/
def lookup_dir (env : LookupEnv) (oh : vfsfsal_handle_t)
    (poa : Option fsal_attrib_list_t) (parentfd : Nat) : LookupResult :=
  if FSAL_IS_ERROR env.testAccess then
    { status := env.testAccess, object_handle := some oh,
      object_attributes := poa,
      trace := [FsEvent.openHandle, FsEvent.fstatCall,
                FsEvent.testAccessCall] }
  else
    match env.name_by_handle with
    | Except.error errsrv =>
        { status := { major := posix2fsal_error errsrv, minor := errsrv },
          object_handle := some (set_handle_len oh), object_attributes := poa,
          trace := [FsEvent.openHandle, FsEvent.fstatCall,
                    FsEvent.testAccessCall, FsEvent.nameLookupCall,
                    FsEvent.closeFd parentfd] }
    | Except.ok newvfs =>
        lookup_attr_exit env { data_vfs_handle := newvfs } poa
          [FsEvent.openHandle, FsEvent.fstatCall, FsEvent.testAccessCall,
           FsEvent.nameLookupCall, FsEvent.closeFd parentfd]

/-- Kind switch of `VFSFSAL_lookup` (lines 142-164) on
`posix2fsal_type(buffstat.st_mode)`: DIR proceeds, JUNCTION closes and
returns `ERR_FSAL_XDEV`, FILE/LNK/XATTR close and return
`ERR_FSAL_NOTDIR`, anything else closes and returns
`ERR_FSAL_SERVERFAULT`. -/
def lookup_kind (env : LookupEnv) (oh : vfsfsal_handle_t)
    (poa : Option fsal_attrib_list_t) (parentfd : Nat)
    (t : fsal_nodetype) : LookupResult :=
  match t with
  | fsal_nodetype.FSAL_TYPE_DIR => lookup_dir env oh poa parentfd
  | fsal_nodetype.FSAL_TYPE_JUNCTION =>
      { status := { major := fsal_errors_t.ERR_FSAL_XDEV, minor := 0 },
        object_handle := some oh, object_attributes := poa,
        trace := [FsEvent.openHandle, FsEvent.fstatCall,
                  FsEvent.closeFd parentfd] }
  | fsal_nodetype.FSAL_TYPE_FILE | fsal_nodetype.FSAL_TYPE_LNK
  | fsal_nodetype.FSAL_TYPE_XATTR =>
      { status := { major := fsal_errors_t.ERR_FSAL_NOTDIR, minor := 0 },
        object_handle := some oh, object_attributes := poa,
        trace := [FsEvent.openHandle, FsEvent.fstatCall,
                  FsEvent.closeFd parentfd] }
  | _ =>
      { status := { major := fsal_errors_t.ERR_FSAL_SERVERFAULT, minor := 0 },
        object_handle := some oh, object_attributes := poa,
        trace := [FsEvent.openHandle, FsEvent.fstatCall,
                  FsEvent.closeFd parentfd] }

/-- Main path of `VFSFSAL_lookup` (lines 118-141): open the parent by
handle (`fsal_internal_handle2fd`; an error status is returned unchanged),
then `fstat` it (error path above), then dispatch on the classified
kind. -/
def lookup_open_parent (env : LookupEnv) (oh : vfsfsal_handle_t)
    (poa : Option fsal_attrib_list_t) : LookupResult :=
  match env.handle2fd with
  | Except.error st =>
      { status := st, object_handle := some oh, object_attributes := poa,
        trace := [FsEvent.openHandle] }
  | Except.ok parentfd =>
      match env.fstat with
      | Except.error _errno_fstat =>
          lookup_fstat_error env.errsv oh poa parentfd
      | Except.ok buffstat =>
          lookup_kind env oh poa parentfd buffstat.st_type

/-- Embedding of `VFSFSAL_lookup` (fsal_lookup.c lines 69-204): the
NULL-pointer sanity checks (lines 88-94), then the root degenerate case or
the main open-fstat-classify-check-lookup path. -/
def VFSFSAL_lookup (env : LookupEnv)
    (p_parent_directory_handle : Option vfsfsal_handle_t)
    (p_filename : Option fsal_name_t)
    (p_context : Option vfsfsal_op_context_t)
    (p_object_handle : Option vfsfsal_handle_t)
    (p_object_attributes : Option fsal_attrib_list_t) : LookupResult :=
  match p_object_handle, p_context with
  | none, _ => fault_result none p_object_attributes
  | some oh, none => fault_result (some oh) p_object_attributes
  | some oh, some ctx =>
    match p_parent_directory_handle, p_filename with
    | some _, none => fault_result (some oh) p_object_attributes
    | none, some _ => fault_result (some oh) p_object_attributes
    | none, none => lookup_root env ctx oh p_object_attributes
    | some _parent, some _fname => lookup_open_parent env oh p_object_attributes

/-- Outcomes of the external calls a single `VFSFSAL_lookupPath` invocation
can make. -/
structure PathEnv where
  path2handle : Except fsal_status_t vfsfsal_handle_t
  getattrs : fsal_status_t × fsal_attrib_list_t

/-- Same attribute-fetch transform for `VFSFSAL_lookupPath` (source lines
257-262). -/
def getattrsStepPath (env : PathEnv) (_oa : fsal_attrib_list_t) :
    fsal_attrib_list_t :=
  if FSAL_IS_ERROR env.getattrs.1 then
    { env.getattrs.2 with
      asked_attributes :=
        FSAL_SET_MASK (FSAL_CLEAR_MASK env.getattrs.2.asked_attributes)
          FSAL_ATTR_RDATTR_ERR }
  else
    env.getattrs.2

/-- Successful tail of `VFSFSAL_lookupPath` (lines 254-265): optional
non-fatal attribute fetch, then `Return(ERR_FSAL_NO_ERROR, 0, ...)`. -/
def lookupPath_attr_exit (env : PathEnv) (newh : vfsfsal_handle_t)
    (poa : Option fsal_attrib_list_t) : LookupResult :=
  match poa with
  | none =>
      { status := { major := fsal_errors_t.ERR_FSAL_NO_ERROR, minor := 0 },
        object_handle := some newh, object_attributes := none,
        trace := [FsEvent.path2handleCall] }
  | some oa =>
      { status := { major := fsal_errors_t.ERR_FSAL_NO_ERROR, minor := 0 },
        object_handle := some newh,
        object_attributes := some (getattrsStepPath env oa),
        trace := [FsEvent.path2handleCall, FsEvent.getattrsCall] }

/-- Body of `VFSFSAL_lookupPath` after the NULL checks (lines 243-265): the
absolute-path syntax check on `path[0]`, delegation to
`fsal_internal_Path2Handle` (an error status returned unchanged), then the
attribute tail. -/
def lookupPath_body (env : PathEnv) (oh : vfsfsal_handle_t)
    (pth : fsal_path_t) (poa : Option fsal_attrib_list_t) : LookupResult :=
  if pth.path.data.head? = some '/' then
    match env.path2handle with
    | Except.error st =>
        { status := st, object_handle := some oh, object_attributes := poa,
          trace := [FsEvent.path2handleCall] }
    | Except.ok newh => lookupPath_attr_exit env newh poa
  else
    { status := { major := fsal_errors_t.ERR_FSAL_INVAL, minor := 0 },
      object_handle := some oh, object_attributes := poa, trace := [] }

/-- Embedding of `VFSFSAL_lookupPath` (fsal_lookup.c lines 228-267):
NULL-argument checks (lines 240-241), then the body above. -/
def VFSFSAL_lookupPath (env : PathEnv)
    (p_path : Option fsal_path_t)
    (p_context : Option vfsfsal_op_context_t)
    (object_handle : Option vfsfsal_handle_t)
    (p_object_attributes : Option fsal_attrib_list_t) : LookupResult :=
  match object_handle, p_context, p_path with
  | none, _, _ => fault_result none p_object_attributes
  | some oh, none, _ => fault_result (some oh) p_object_attributes
  | some oh, some _, none => fault_result (some oh) p_object_attributes
  | some oh, some _ctx, some pth => lookupPath_body env oh pth p_object_attributes

/-- Embedding of `VFSFSAL_lookupJunction` (fsal_lookup.c lines 292-353).
Every statement of its body other than `Return(ERR_FSAL_NO_ERROR, 0, ...)`
is commented out in the source (sanity checks, the federation-mapping call,
the write of the output handle, the attribute conversion), and the
`if(p_fsroot_attributes)` branch has an empty body, so the function
unconditionally succeeds and writes none of its output parameters. -/
def VFSFSAL_lookupJunction
    (_p_junction_handle : Option vfsfsal_handle_t)
    (_p_context : Option vfsfsal_op_context_t)
    (p_fsoot_handle : Option vfsfsal_handle_t)
    (p_fsroot_attributes : Option fsal_attrib_list_t) : LookupResult :=
  { status := { major := fsal_errors_t.ERR_FSAL_NO_ERROR, minor := 0 },
    object_handle := p_fsoot_handle,
    object_attributes := p_fsroot_attributes,
    trace := [] }

/-- Number of `close` calls recorded in a trace. -/
def closeCount (t : List FsEvent) : Nat :=
  (t.filter fun e =>
    match e with
    | FsEvent.closeFd _ => true
    | _ => false).length

/-- Clearing a mask and then setting one bit yields exactly that bit. -/
theorem set_clear_mask (x b : Nat) :
    FSAL_SET_MASK (FSAL_CLEAR_MASK x) b = b := Nat.zero_or b

/-- With both the parent handle and the filename present (and non-NULL
output and context), `VFSFSAL_lookup` is the main open-parent path. -/
theorem lookup_main_eq (env : LookupEnv) (parent : vfsfsal_handle_t)
    (fname : fsal_name_t) (ctx : vfsfsal_op_context_t)
    (oh : vfsfsal_handle_t) (poa : Option fsal_attrib_list_t) :
    VFSFSAL_lookup env (some parent) (some fname) (some ctx) (some oh) poa =
      lookup_open_parent env oh poa := rfl

/-- When the open and the fstat both succeed, the main path is the kind
dispatch on the stat buffer's classified type. -/
theorem open_parent_eq (env : LookupEnv) (oh : vfsfsal_handle_t)
    (poa : Option fsal_attrib_list_t) (fd : Nat) (st : stat_buf)
    (h1 : env.handle2fd = Except.ok fd)
    (h2 : env.fstat = Except.ok st) :
    lookup_open_parent env oh poa = lookup_kind env oh poa fd st.st_type := by
  unfold lookup_open_parent
  rw [h1, h2]

/-- The kind dispatch sends a directory to the directory body. -/
theorem kind_dir_eq (env : LookupEnv) (oh : vfsfsal_handle_t)
    (poa : Option fsal_attrib_list_t) (fd : Nat) :
    lookup_kind env oh poa fd fsal_nodetype.FSAL_TYPE_DIR =
      lookup_dir env oh poa fd := rfl

/-- Directory body when the access check denies: the testAccess status is
returned, the output handle untouched, and no close occurs. -/
theorem dir_denied_eq (env : LookupEnv) (oh : vfsfsal_handle_t)
    (poa : Option fsal_attrib_list_t) (fd : Nat)
    (hta : FSAL_IS_ERROR env.testAccess = true) :
    lookup_dir env oh poa fd =
      { status := env.testAccess, object_handle := some oh,
        object_attributes := poa,
        trace := [FsEvent.openHandle, FsEvent.fstatCall,
                  FsEvent.testAccessCall] } := by
  unfold lookup_dir
  rw [if_pos hta]

/-- Directory body when access is granted and the name lookup fails:
the errno is mapped through the ErrorMapper, and the output handle has had
its length field written. -/
theorem dir_name_error_eq (env : LookupEnv) (oh : vfsfsal_handle_t)
    (poa : Option fsal_attrib_list_t) (fd e : Nat)
    (hta : FSAL_IS_ERROR env.testAccess = false)
    (hnb : env.name_by_handle = Except.error e) :
    lookup_dir env oh poa fd =
      { status := { major := posix2fsal_error e, minor := e },
        object_handle := some (set_handle_len oh), object_attributes := poa,
        trace := [FsEvent.openHandle, FsEvent.fstatCall,
                  FsEvent.testAccessCall, FsEvent.nameLookupCall,
                  FsEvent.closeFd fd] } := by
  unfold lookup_dir
  rw [if_neg (by simp [hta]), hnb]

/-- Directory body when access is granted and the name lookup succeeds:
the attribute tail runs on the looked-up handle. -/
theorem dir_name_ok_eq (env : LookupEnv) (oh : vfsfsal_handle_t)
    (poa : Option fsal_attrib_list_t) (fd : Nat) (nh : vfs_file_handle_t)
    (hta : FSAL_IS_ERROR env.testAccess = false)
    (hnb : env.name_by_handle = Except.ok nh) :
    lookup_dir env oh poa fd =
      lookup_attr_exit env { data_vfs_handle := nh } poa
        [FsEvent.openHandle, FsEvent.fstatCall, FsEvent.testAccessCall,
         FsEvent.nameLookupCall, FsEvent.closeFd fd] := by
  unfold lookup_dir
  rw [if_neg (by simp [hta]), hnb]

/-- The attribute tail always reports success, whatever the getattrs
outcome. -/
theorem attr_exit_status (env : LookupEnv) (ohNew : vfsfsal_handle_t)
    (poa : Option fsal_attrib_list_t) (tr : List FsEvent) :
    (lookup_attr_exit env ohNew poa tr).status =
      { major := fsal_errors_t.ERR_FSAL_NO_ERROR, minor := 0 } := by
  cases poa <;> rfl

/-- The fstat-failure exit leaves the output handle untouched, whatever the
garbage `errsv` holds. -/
theorem fstat_error_handle (esv : Nat) (oh : vfsfsal_handle_t)
    (poa : Option fsal_attrib_list_t) (fd : Nat) :
    (lookup_fstat_error esv oh poa fd).object_handle = some oh := by
  unfold lookup_fstat_error
  split <;> rfl

/-- Attribute tail with attributes requested and the fetch failing: the
call still succeeds, and the mask is exactly the marker bit. -/
theorem attr_exit_some_err_eq (env : LookupEnv) (ohNew : vfsfsal_handle_t)
    (oa : fsal_attrib_list_t) (tr : List FsEvent)
    (hga : FSAL_IS_ERROR env.getattrs.1 = true) :
    lookup_attr_exit env ohNew (some oa) tr =
      { status := { major := fsal_errors_t.ERR_FSAL_NO_ERROR, minor := 0 },
        object_handle := some ohNew,
        object_attributes :=
          some { env.getattrs.2 with
                   asked_attributes := FSAL_ATTR_RDATTR_ERR },
        trace := tr ++ [FsEvent.getattrsCall] } := by
  unfold lookup_attr_exit getattrsStep
  rw [if_pos hga, set_clear_mask]

/-- The directory body always records the access check in its trace. -/
theorem dir_testAccess_mem (env : LookupEnv) (oh : vfsfsal_handle_t)
    (poa : Option fsal_attrib_list_t) (fd : Nat) :
    FsEvent.testAccessCall ∈ (lookup_dir env oh poa fd).trace := by
  cases hta : FSAL_IS_ERROR env.testAccess with
  | true =>
    rw [dir_denied_eq env oh poa fd hta]
    simp
  | false =>
    cases hnb : env.name_by_handle with
    | error e =>
      rw [dir_name_error_eq env oh poa fd e hta hnb]
      simp
    | ok nh =>
      rw [dir_name_ok_eq env oh poa fd nh hta hnb]
      cases poa with
      | none =>
        show FsEvent.testAccessCall ∈
          [FsEvent.openHandle, FsEvent.fstatCall, FsEvent.testAccessCall,
           FsEvent.nameLookupCall, FsEvent.closeFd fd]
        simp
      | some oa =>
        show FsEvent.testAccessCall ∈
          [FsEvent.openHandle, FsEvent.fstatCall, FsEvent.testAccessCall,
           FsEvent.nameLookupCall, FsEvent.closeFd fd] ++
            [FsEvent.getattrsCall]
        simp

/-- On every error return of the directory body, the output handle is
either untouched or has exactly its length field written. -/
theorem dir_error_frame (env : LookupEnv) (oh : vfsfsal_handle_t)
    (poa : Option fsal_attrib_list_t) (fd : Nat)
    (h : FSAL_IS_ERROR (lookup_dir env oh poa fd).status = true) :
    (lookup_dir env oh poa fd).object_handle = some oh ∨
    (lookup_dir env oh poa fd).object_handle =
      some (set_handle_len oh) := by
  cases hta : FSAL_IS_ERROR env.testAccess with
  | true =>
    left
    rw [dir_denied_eq env oh poa fd hta]
  | false =>
    cases hnb : env.name_by_handle with
    | error e =>
      right
      rw [dir_name_error_eq env oh poa fd e hta hnb]
    | ok nh =>
      rw [dir_name_ok_eq env oh poa fd nh hta hnb, attr_exit_status] at h
      exact absurd h (by decide)

/-- On every error return of the main open-parent path, the output handle
is either untouched or has exactly its length field written. -/
theorem open_parent_error_frame (env : LookupEnv) (oh : vfsfsal_handle_t)
    (poa : Option fsal_attrib_list_t)
    (h : FSAL_IS_ERROR (lookup_open_parent env oh poa).status = true) :
    (lookup_open_parent env oh poa).object_handle = some oh ∨
    (lookup_open_parent env oh poa).object_handle =
      some (set_handle_len oh) := by
  obtain ⟨h2fd, fst, esv, ta, nbh, ga⟩ := env
  cases h2fd with
  | error st => exact Or.inl rfl
  | ok fd =>
    cases fst with
    | error e =>
      exact Or.inl (fstat_error_handle esv oh poa fd)
    | ok stb =>
      obtain ⟨sty, ino⟩ := stb
      cases sty with
      | FSAL_TYPE_DIR =>
        exact dir_error_frame
          { handle2fd := Except.ok fd,
            fstat := Except.ok { st_type := fsal_nodetype.FSAL_TYPE_DIR,
                                 st_ino := ino },
            errsv := esv, testAccess := ta, name_by_handle := nbh,
            getattrs := ga } oh poa fd h
      | FSAL_TYPE_FIFO => exact Or.inl rfl
      | FSAL_TYPE_CHR => exact Or.inl rfl
      | FSAL_TYPE_BLK => exact Or.inl rfl
      | FSAL_TYPE_FILE => exact Or.inl rfl
      | FSAL_TYPE_LNK => exact Or.inl rfl
      | FSAL_TYPE_SOCK => exact Or.inl rfl
      | FSAL_TYPE_XATTR => exact Or.inl rfl
      | FSAL_TYPE_JUNCTION => exact Or.inl rfl

/-- With all pointers present, `VFSFSAL_lookupPath` is its body. -/
theorem lookupPath_some_eq (env : PathEnv) (pth : fsal_path_t)
    (ctx : vfsfsal_op_context_t) (oh : vfsfsal_handle_t)
    (poa : Option fsal_attrib_list_t) :
    VFSFSAL_lookupPath env (some pth) (some ctx) (some oh) poa =
      lookupPath_body env oh pth poa := rfl

/-- Path body with an absolute path and a successful bulk translation:
the attribute tail runs on the translated handle. -/
theorem path_body_ok_eq (env : PathEnv) (oh : vfsfsal_handle_t)
    (pth : fsal_path_t) (poa : Option fsal_attrib_list_t)
    (newh : vfsfsal_handle_t)
    (h1 : pth.path.data.head? = some '/')
    (h2 : env.path2handle = Except.ok newh) :
    lookupPath_body env oh pth poa = lookupPath_attr_exit env newh poa := by
  unfold lookupPath_body
  rw [if_pos h1, h2]

/-- Path attribute tail with attributes requested and the fetch failing:
the call still succeeds, and the mask is exactly the marker bit. -/
theorem path_attr_exit_some_err_eq (env : PathEnv)
    (newh : vfsfsal_handle_t) (oa : fsal_attrib_list_t)
    (hga : FSAL_IS_ERROR env.getattrs.1 = true) :
    lookupPath_attr_exit env newh (some oa) =
      { status := { major := fsal_errors_t.ERR_FSAL_NO_ERROR, minor := 0 },
        object_handle := some newh,
        object_attributes :=
          some { env.getattrs.2 with
                   asked_attributes := FSAL_ATTR_RDATTR_ERR },
        trace := [FsEvent.path2handleCall, FsEvent.getattrsCall] } := by
  unfold lookupPath_attr_exit getattrsStepPath
  rw [if_pos hga, set_clear_mask]

/-- C4: for every input, `VFSFSAL_lookupJunction` returns the no-error
success status, never writes the output target handle or the attribute
buffer, and makes no external call; in particular it never returns NotFound
or any failure for an absent federation mapping. -/
theorem C4_lookupJunction_always_succeeds_and_writes_nothing
    (p_junction_handle : Option vfsfsal_handle_t)
    (p_context : Option vfsfsal_op_context_t)
    (p_fsoot_handle : Option vfsfsal_handle_t)
    (p_fsroot_attributes : Option fsal_attrib_list_t) :
    VFSFSAL_lookupJunction p_junction_handle p_context p_fsoot_handle
        p_fsroot_attributes =
      { status := { major := fsal_errors_t.ERR_FSAL_NO_ERROR, minor := 0 },
        object_handle := p_fsoot_handle,
        object_attributes := p_fsroot_attributes,
        trace := [] } := rfl

/-- C6: `Resolve(None, None, ctx)` with valid output and context pointers
always succeeds with a copy of the root handle from the context, performs
no access check or handle open or name lookup, and touches the store only
when attributes were requested (one getattrs call), regardless of every
external-call outcome (so also when the attribute fetch fails). -/
theorem C6_root_lookup (env : LookupEnv) (ctx : vfsfsal_op_context_t)
    (oh : vfsfsal_handle_t) (poa : Option fsal_attrib_list_t) :
    (VFSFSAL_lookup env none none (some ctx) (some oh) poa).status =
        { major := fsal_errors_t.ERR_FSAL_NO_ERROR, minor := 0 } ∧
    (VFSFSAL_lookup env none none (some ctx) (some oh) poa).object_handle =
        some { oh with data_vfs_handle := ctx.export_context_root_handle } ∧
    (VFSFSAL_lookup env none none (some ctx) (some oh) poa).trace =
        (match poa with
         | none => []
         | some _ => [FsEvent.getattrsCall]) ∧
    FsEvent.openHandle ∉
        (VFSFSAL_lookup env none none (some ctx) (some oh) poa).trace ∧
    FsEvent.testAccessCall ∉
        (VFSFSAL_lookup env none none (some ctx) (some oh) poa).trace ∧
    FsEvent.nameLookupCall ∉
        (VFSFSAL_lookup env none none (some ctx) (some oh) poa).trace := by
  cases poa with
  | none =>
    exact ⟨rfl, rfl, rfl,
      by show FsEvent.openHandle ∉ ([] : List FsEvent); decide,
      by show FsEvent.testAccessCall ∉ ([] : List FsEvent); decide,
      by show FsEvent.nameLookupCall ∉ ([] : List FsEvent); decide⟩
  | some oa =>
    exact ⟨rfl, rfl, rfl,
      by show FsEvent.openHandle ∉ [FsEvent.getattrsCall]; decide,
      by show FsEvent.testAccessCall ∉ [FsEvent.getattrsCall]; decide,
      by show FsEvent.nameLookupCall ∉ [FsEvent.getattrsCall]; decide⟩

/-- C9: when exactly one of the parent handle and the filename is present,
`VFSFSAL_lookup` returns the FaultyArgument status and makes no external
call at all (no handle open, no store access), for every context and
output-pointer combination. -/
theorem C9_one_sided_arguments_fault (env : LookupEnv)
    (parent : vfsfsal_handle_t) (fname : fsal_name_t)
    (pctx : Option vfsfsal_op_context_t) (poh : Option vfsfsal_handle_t)
    (poa : Option fsal_attrib_list_t) :
    ((VFSFSAL_lookup env (some parent) none pctx poh poa).status.major =
        fsal_errors_t.ERR_FSAL_FAULT ∧
      (VFSFSAL_lookup env (some parent) none pctx poh poa).trace = []) ∧
    ((VFSFSAL_lookup env none (some fname) pctx poh poa).status.major =
        fsal_errors_t.ERR_FSAL_FAULT ∧
      (VFSFSAL_lookup env none (some fname) pctx poh poa).trace = []) := by
  cases poh <;> cases pctx <;> exact ⟨⟨rfl, rfl⟩, rfl, rfl⟩

/-- C10: a NULL output-handle pointer or NULL context makes
`VFSFSAL_lookup` return FaultyArgument with no external call and no write
to any output buffer, and a NULL path, NULL output-handle pointer or NULL
context does the same for `VFSFSAL_lookupPath`, before any other check. -/
theorem C10_null_pointer_checks_fault (envL : LookupEnv) (envP : PathEnv)
    (pph : Option vfsfsal_handle_t) (pfn : Option fsal_name_t)
    (pctx : Option vfsfsal_op_context_t) (poh : Option vfsfsal_handle_t)
    (poa : Option fsal_attrib_list_t) (ppath : Option fsal_path_t) :
    ((VFSFSAL_lookup envL pph pfn pctx none poa).status.major =
        fsal_errors_t.ERR_FSAL_FAULT ∧
      (VFSFSAL_lookup envL pph pfn pctx none poa).trace = [] ∧
      (VFSFSAL_lookup envL pph pfn pctx none poa).object_handle = none ∧
      (VFSFSAL_lookup envL pph pfn pctx none poa).object_attributes = poa) ∧
    ((VFSFSAL_lookup envL pph pfn none poh poa).status.major =
        fsal_errors_t.ERR_FSAL_FAULT ∧
      (VFSFSAL_lookup envL pph pfn none poh poa).trace = [] ∧
      (VFSFSAL_lookup envL pph pfn none poh poa).object_handle = poh ∧
      (VFSFSAL_lookup envL pph pfn none poh poa).object_attributes = poa) ∧
    ((VFSFSAL_lookupPath envP none pctx poh poa).status.major =
        fsal_errors_t.ERR_FSAL_FAULT ∧
      (VFSFSAL_lookupPath envP none pctx poh poa).trace = [] ∧
      (VFSFSAL_lookupPath envP none pctx poh poa).object_handle = poh ∧
      (VFSFSAL_lookupPath envP none pctx poh poa).object_attributes = poa) ∧
    ((VFSFSAL_lookupPath envP ppath pctx none poa).status.major =
        fsal_errors_t.ERR_FSAL_FAULT ∧
      (VFSFSAL_lookupPath envP ppath pctx none poa).trace = [] ∧
      (VFSFSAL_lookupPath envP ppath pctx none poa).object_handle = none ∧
      (VFSFSAL_lookupPath envP ppath pctx none poa).object_attributes = poa) ∧
    ((VFSFSAL_lookupPath envP ppath none poh poa).status.major =
        fsal_errors_t.ERR_FSAL_FAULT ∧
      (VFSFSAL_lookupPath envP ppath none poh poa).trace = [] ∧
      (VFSFSAL_lookupPath envP ppath none poh poa).object_handle = poh ∧
      (VFSFSAL_lookupPath envP ppath none poh poa).object_attributes = poa) := by
  refine ⟨⟨rfl, rfl, rfl, rfl⟩, ?_, ?_, ?_, ?_⟩
  · cases poh <;> exact ⟨rfl, rfl, rfl, rfl⟩
  · cases poh <;> cases pctx <;> exact ⟨rfl, rfl, rfl, rfl⟩
  · exact ⟨rfl, rfl, rfl, rfl⟩
  · cases poh <;> exact ⟨rfl, rfl, rfl, rfl⟩

/-- C1: concrete run in which `fstat` fails with errno ENOENT while the
never-assigned local `errsv` happens to hold 5: the function returns the
mapped generic I/O error with minor 5 (the garbage value), not
`ERR_FSAL_STALE`, because the source tests `errsv` where it stored the real
errno into `errsrv`. -/
theorem C1_fstat_enoent_returns_garbage_not_stale :
    (VFSFSAL_lookup
        { handle2fd := Except.ok 3,
          fstat := Except.error ENOENT,
          errsv := 5,
          testAccess := { major := fsal_errors_t.ERR_FSAL_NO_ERROR, minor := 0 },
          name_by_handle := Except.error 0,
          getattrs := ({ major := fsal_errors_t.ERR_FSAL_NO_ERROR, minor := 0 },
                       { asked_attributes := 0, attr_values := 0 }) }
        (some { data_vfs_handle := { handle_bytes := 48, handle := [9] } })
        (some { name := "a" })
        (some { export_context_root_handle := { handle_bytes := 9, handle := [4] } })
        (some { data_vfs_handle := { handle_bytes := 7, handle := [1] } })
        none).status =
      { major := fsal_errors_t.ERR_FSAL_IO_ERROR, minor := 5 } ∧
    (VFSFSAL_lookup
        { handle2fd := Except.ok 3,
          fstat := Except.error ENOENT,
          errsv := 5,
          testAccess := { major := fsal_errors_t.ERR_FSAL_NO_ERROR, minor := 0 },
          name_by_handle := Except.error 0,
          getattrs := ({ major := fsal_errors_t.ERR_FSAL_NO_ERROR, minor := 0 },
                       { asked_attributes := 0, attr_values := 0 }) }
        (some { data_vfs_handle := { handle_bytes := 48, handle := [9] } })
        (some { name := "a" })
        (some { export_context_root_handle := { handle_bytes := 9, handle := [4] } })
        (some { data_vfs_handle := { handle_bytes := 7, handle := [1] } })
        none).status.major ≠ fsal_errors_t.ERR_FSAL_STALE := by
  constructor
  · rfl
  · decide

/-- C2: concrete run in which the parent opens (fd 3), `fstat` classifies
it as a directory, and `fsal_internal_testAccess` denies traversal: the
function returns the access error after having opened the transient
reference, and the trace contains no `close` at all — the reference is
leaked on this error exit, not closed exactly once. -/
theorem C2_access_denied_exit_leaks_parentfd :
    (VFSFSAL_lookup
        { handle2fd := Except.ok 3,
          fstat := Except.ok { st_type := fsal_nodetype.FSAL_TYPE_DIR,
                               st_ino := 11 },
          errsv := 0,
          testAccess := { major := fsal_errors_t.ERR_FSAL_ACCESS,
                          minor := EACCES },
          name_by_handle := Except.error 0,
          getattrs := ({ major := fsal_errors_t.ERR_FSAL_NO_ERROR, minor := 0 },
                       { asked_attributes := 0, attr_values := 0 }) }
        (some { data_vfs_handle := { handle_bytes := 48, handle := [9] } })
        (some { name := "a" })
        (some { export_context_root_handle := { handle_bytes := 9, handle := [4] } })
        (some { data_vfs_handle := { handle_bytes := 7, handle := [1] } })
        none) =
      { status := { major := fsal_errors_t.ERR_FSAL_ACCESS, minor := EACCES },
        object_handle := some { data_vfs_handle := { handle_bytes := 7,
                                                     handle := [1] } },
        object_attributes := none,
        trace := [FsEvent.openHandle, FsEvent.fstatCall,
                  FsEvent.testAccessCall] } ∧
    closeCount [FsEvent.openHandle, FsEvent.fstatCall,
                FsEvent.testAccessCall] = 0 := by
  constructor
  · rfl
  · rfl

/-- C3 counterexample: concrete run in which the name lookup fails (errno
ENOENT, so the call returns the NotFound error) yet the caller-visible
output handle differs from its pre-call contents: its `handle_bytes` field
was written (set to `VFS_HANDLE_LEN`) before the failing
`vfs_name_by_handle_at` call, refuting "no field of the output handle is
written on any error path". -/
theorem C3_error_path_writes_output_handle :
    FSAL_IS_ERROR
      (VFSFSAL_lookup
          { handle2fd := Except.ok 3,
            fstat := Except.ok { st_type := fsal_nodetype.FSAL_TYPE_DIR,
                                 st_ino := 11 },
            errsv := 0,
            testAccess := { major := fsal_errors_t.ERR_FSAL_NO_ERROR,
                            minor := 0 },
            name_by_handle := Except.error ENOENT,
            getattrs := ({ major := fsal_errors_t.ERR_FSAL_NO_ERROR,
                           minor := 0 },
                         { asked_attributes := 0, attr_values := 0 }) }
          (some { data_vfs_handle := { handle_bytes := 48, handle := [9] } })
          (some { name := "a" })
          (some { export_context_root_handle := { handle_bytes := 9,
                                                  handle := [4] } })
          (some { data_vfs_handle := { handle_bytes := 7, handle := [1] } })
          none).status = true ∧
    (VFSFSAL_lookup
        { handle2fd := Except.ok 3,
          fstat := Except.ok { st_type := fsal_nodetype.FSAL_TYPE_DIR,
                               st_ino := 11 },
          errsv := 0,
          testAccess := { major := fsal_errors_t.ERR_FSAL_NO_ERROR,
                          minor := 0 },
          name_by_handle := Except.error ENOENT,
          getattrs := ({ major := fsal_errors_t.ERR_FSAL_NO_ERROR, minor := 0 },
                       { asked_attributes := 0, attr_values := 0 }) }
        (some { data_vfs_handle := { handle_bytes := 48, handle := [9] } })
        (some { name := "a" })
        (some { export_context_root_handle := { handle_bytes := 9,
                                                handle := [4] } })
        (some { data_vfs_handle := { handle_bytes := 7, handle := [1] } })
        none).object_handle ≠
      some { data_vfs_handle := { handle_bytes := 7, handle := [1] } } := by
  constructor
  · rfl
  · decide

/-- C3 amended: on every error return of `VFSFSAL_lookup` with a non-NULL
output handle, the output handle is either left exactly as it was, or — on
the name-lookup failure exit only — equals its pre-call contents with just
the `handle_bytes` field overwritten by the fixed capacity
`VFS_HANDLE_LEN`. -/
theorem C3_amended_error_frame (env : LookupEnv)
    (pph : Option vfsfsal_handle_t) (pfn : Option fsal_name_t)
    (pctx : Option vfsfsal_op_context_t) (oh : vfsfsal_handle_t)
    (poa : Option fsal_attrib_list_t)
    (h : FSAL_IS_ERROR
        (VFSFSAL_lookup env pph pfn pctx (some oh) poa).status = true) :
    (VFSFSAL_lookup env pph pfn pctx (some oh) poa).object_handle =
        some oh ∨
    (VFSFSAL_lookup env pph pfn pctx (some oh) poa).object_handle =
        some { oh with data_vfs_handle :=
                 { oh.data_vfs_handle with handle_bytes := VFS_HANDLE_LEN } } := by
  cases pctx with
  | none => exact Or.inl rfl
  | some ctx =>
    cases pph with
    | none =>
      cases pfn with
      | none =>
        have hs : (VFSFSAL_lookup env none none (some ctx) (some oh)
            poa).status =
            { major := fsal_errors_t.ERR_FSAL_NO_ERROR, minor := 0 } := by
          cases poa <;> rfl
        rw [hs] at h
        exact absurd h (by decide)
      | some n => exact Or.inl rfl
    | some p =>
      cases pfn with
      | none => exact Or.inl rfl
      | some n => exact open_parent_error_frame env oh poa h

/-- Witness for the amended C3 theorem at a concrete erroring input (the
parent handle fails to open with a stale-handle status, and the output
handle is untouched). -/
theorem C3_amended_error_frame_witness :
    (VFSFSAL_lookup
        { handle2fd := Except.error { major := fsal_errors_t.ERR_FSAL_STALE,
                                      minor := 2 },
          fstat := Except.error 0,
          errsv := 0,
          testAccess := { major := fsal_errors_t.ERR_FSAL_NO_ERROR, minor := 0 },
          name_by_handle := Except.error 0,
          getattrs := ({ major := fsal_errors_t.ERR_FSAL_NO_ERROR, minor := 0 },
                       { asked_attributes := 0, attr_values := 0 }) }
        (some { data_vfs_handle := { handle_bytes := 48, handle := [9] } })
        (some { name := "a" })
        (some { export_context_root_handle := { handle_bytes := 9,
                                                handle := [4] } })
        (some { data_vfs_handle := { handle_bytes := 7, handle := [1] } })
        none).object_handle =
      some { data_vfs_handle := { handle_bytes := 7, handle := [1] } } ∨
    (VFSFSAL_lookup
        { handle2fd := Except.error { major := fsal_errors_t.ERR_FSAL_STALE,
                                      minor := 2 },
          fstat := Except.error 0,
          errsv := 0,
          testAccess := { major := fsal_errors_t.ERR_FSAL_NO_ERROR, minor := 0 },
          name_by_handle := Except.error 0,
          getattrs := ({ major := fsal_errors_t.ERR_FSAL_NO_ERROR, minor := 0 },
                       { asked_attributes := 0, attr_values := 0 }) }
        (some { data_vfs_handle := { handle_bytes := 48, handle := [9] } })
        (some { name := "a" })
        (some { export_context_root_handle := { handle_bytes := 9,
                                                handle := [4] } })
        (some { data_vfs_handle := { handle_bytes := 7, handle := [1] } })
        none).object_handle =
      some { data_vfs_handle := { handle_bytes := VFS_HANDLE_LEN,
                                  handle := [1] } } :=
  C3_amended_error_frame _ _ _ _ _ _ (by decide)

/-- C5: when the parent opens and `fstat` succeeds, the classified kind of
the parent alone decides progress: Directory proceeds to the access check,
Junction returns CrossDevice, RegularFile/SymbolicLink/ExtendedAttribute
return NotADirectory, and every other kind returns ServerFault. -/
theorem C5_parent_kind_decides_progress (env : LookupEnv)
    (parent : vfsfsal_handle_t) (fname : fsal_name_t)
    (ctx : vfsfsal_op_context_t) (oh : vfsfsal_handle_t)
    (poa : Option fsal_attrib_list_t) (fd : Nat) (st : stat_buf)
    (h1 : env.handle2fd = Except.ok fd)
    (h2 : env.fstat = Except.ok st) :
    (st.st_type = fsal_nodetype.FSAL_TYPE_DIR →
      FsEvent.testAccessCall ∈
        (VFSFSAL_lookup env (some parent) (some fname) (some ctx) (some oh)
            poa).trace) ∧
    (st.st_type = fsal_nodetype.FSAL_TYPE_JUNCTION →
      (VFSFSAL_lookup env (some parent) (some fname) (some ctx) (some oh)
          poa).status.major = fsal_errors_t.ERR_FSAL_XDEV) ∧
    ((st.st_type = fsal_nodetype.FSAL_TYPE_FILE ∨
      st.st_type = fsal_nodetype.FSAL_TYPE_LNK ∨
      st.st_type = fsal_nodetype.FSAL_TYPE_XATTR) →
      (VFSFSAL_lookup env (some parent) (some fname) (some ctx) (some oh)
          poa).status.major = fsal_errors_t.ERR_FSAL_NOTDIR) ∧
    ((st.st_type ≠ fsal_nodetype.FSAL_TYPE_DIR ∧
      st.st_type ≠ fsal_nodetype.FSAL_TYPE_JUNCTION ∧
      st.st_type ≠ fsal_nodetype.FSAL_TYPE_FILE ∧
      st.st_type ≠ fsal_nodetype.FSAL_TYPE_LNK ∧
      st.st_type ≠ fsal_nodetype.FSAL_TYPE_XATTR) →
      (VFSFSAL_lookup env (some parent) (some fname) (some ctx) (some oh)
          poa).status.major = fsal_errors_t.ERR_FSAL_SERVERFAULT) := by
  have e : VFSFSAL_lookup env (some parent) (some fname) (some ctx) (some oh)
      poa = lookup_kind env oh poa fd st.st_type := by
    rw [lookup_main_eq, open_parent_eq env oh poa fd st h1 h2]
  refine ⟨fun hd => ?_, fun hj => ?_, fun hn => ?_, fun ho => ?_⟩
  · rw [e, hd, kind_dir_eq]
    exact dir_testAccess_mem env oh poa fd
  · rw [e, hj]; rfl
  · rcases hn with h3 | h3 | h3 <;> (rw [e, h3]; rfl)
  · obtain ⟨n1, n2, n3, n4, n5⟩ := ho
    rw [e]
    cases hty : st.st_type with
    | FSAL_TYPE_DIR => exact absurd hty n1
    | FSAL_TYPE_JUNCTION => exact absurd hty n2
    | FSAL_TYPE_FILE => exact absurd hty n3
    | FSAL_TYPE_LNK => exact absurd hty n4
    | FSAL_TYPE_XATTR => exact absurd hty n5
    | FSAL_TYPE_FIFO => rfl
    | FSAL_TYPE_CHR => rfl
    | FSAL_TYPE_BLK => rfl
    | FSAL_TYPE_SOCK => rfl

/-- Witness for C5 at a concrete input whose parent is classified as a
junction: the call returns the CrossDevice error. -/
theorem C5_parent_kind_decides_progress_witness :
    (fsal_nodetype.FSAL_TYPE_JUNCTION = fsal_nodetype.FSAL_TYPE_DIR →
      FsEvent.testAccessCall ∈
        (VFSFSAL_lookup
            { handle2fd := Except.ok 3,
              fstat := Except.ok { st_type := fsal_nodetype.FSAL_TYPE_JUNCTION,
                                   st_ino := 11 },
              errsv := 0,
              testAccess := { major := fsal_errors_t.ERR_FSAL_NO_ERROR,
                              minor := 0 },
              name_by_handle := Except.error 0,
              getattrs := ({ major := fsal_errors_t.ERR_FSAL_NO_ERROR,
                             minor := 0 },
                           { asked_attributes := 0, attr_values := 0 }) }
            (some { data_vfs_handle := { handle_bytes := 48, handle := [9] } })
            (some { name := "a" })
            (some { export_context_root_handle := { handle_bytes := 9,
                                                    handle := [4] } })
            (some { data_vfs_handle := { handle_bytes := 7, handle := [1] } })
            none).trace) ∧
    (fsal_nodetype.FSAL_TYPE_JUNCTION = fsal_nodetype.FSAL_TYPE_JUNCTION →
      (VFSFSAL_lookup
          { handle2fd := Except.ok 3,
            fstat := Except.ok { st_type := fsal_nodetype.FSAL_TYPE_JUNCTION,
                                 st_ino := 11 },
            errsv := 0,
            testAccess := { major := fsal_errors_t.ERR_FSAL_NO_ERROR,
                            minor := 0 },
            name_by_handle := Except.error 0,
            getattrs := ({ major := fsal_errors_t.ERR_FSAL_NO_ERROR,
                           minor := 0 },
                         { asked_attributes := 0, attr_values := 0 }) }
          (some { data_vfs_handle := { handle_bytes := 48, handle := [9] } })
          (some { name := "a" })
          (some { export_context_root_handle := { handle_bytes := 9,
                                                  handle := [4] } })
          (some { data_vfs_handle := { handle_bytes := 7, handle := [1] } })
          none).status.major = fsal_errors_t.ERR_FSAL_XDEV) ∧
    ((fsal_nodetype.FSAL_TYPE_JUNCTION = fsal_nodetype.FSAL_TYPE_FILE ∨
      fsal_nodetype.FSAL_TYPE_JUNCTION = fsal_nodetype.FSAL_TYPE_LNK ∨
      fsal_nodetype.FSAL_TYPE_JUNCTION = fsal_nodetype.FSAL_TYPE_XATTR) →
      (VFSFSAL_lookup
          { handle2fd := Except.ok 3,
            fstat := Except.ok { st_type := fsal_nodetype.FSAL_TYPE_JUNCTION,
                                 st_ino := 11 },
            errsv := 0,
            testAccess := { major := fsal_errors_t.ERR_FSAL_NO_ERROR,
                            minor := 0 },
            name_by_handle := Except.error 0,
            getattrs := ({ major := fsal_errors_t.ERR_FSAL_NO_ERROR,
                           minor := 0 },
                         { asked_attributes := 0, attr_values := 0 }) }
          (some { data_vfs_handle := { handle_bytes := 48, handle := [9] } })
          (some { name := "a" })
          (some { export_context_root_handle := { handle_bytes := 9,
                                                  handle := [4] } })
          (some { data_vfs_handle := { handle_bytes := 7, handle := [1] } })
          none).status.major = fsal_errors_t.ERR_FSAL_NOTDIR) ∧
    ((fsal_nodetype.FSAL_TYPE_JUNCTION ≠ fsal_nodetype.FSAL_TYPE_DIR ∧
      fsal_nodetype.FSAL_TYPE_JUNCTION ≠ fsal_nodetype.FSAL_TYPE_JUNCTION ∧
      fsal_nodetype.FSAL_TYPE_JUNCTION ≠ fsal_nodetype.FSAL_TYPE_FILE ∧
      fsal_nodetype.FSAL_TYPE_JUNCTION ≠ fsal_nodetype.FSAL_TYPE_LNK ∧
      fsal_nodetype.FSAL_TYPE_JUNCTION ≠ fsal_nodetype.FSAL_TYPE_XATTR) →
      (VFSFSAL_lookup
          { handle2fd := Except.ok 3,
            fstat := Except.ok { st_type := fsal_nodetype.FSAL_TYPE_JUNCTION,
                                 st_ino := 11 },
            errsv := 0,
            testAccess := { major := fsal_errors_t.ERR_FSAL_NO_ERROR,
                            minor := 0 },
            name_by_handle := Except.error 0,
            getattrs := ({ major := fsal_errors_t.ERR_FSAL_NO_ERROR,
                           minor := 0 },
                         { asked_attributes := 0, attr_values := 0 }) }
          (some { data_vfs_handle := { handle_bytes := 48, handle := [9] } })
          (some { name := "a" })
          (some { export_context_root_handle := { handle_bytes := 9,
                                                  handle := [4] } })
          (some { data_vfs_handle := { handle_bytes := 7, handle := [1] } })
          none).status.major = fsal_errors_t.ERR_FSAL_SERVERFAULT) :=
  C5_parent_kind_decides_progress
    { handle2fd := Except.ok 3,
      fstat := Except.ok { st_type := fsal_nodetype.FSAL_TYPE_JUNCTION,
                           st_ino := 11 },
      errsv := 0,
      testAccess := { major := fsal_errors_t.ERR_FSAL_NO_ERROR, minor := 0 },
      name_by_handle := Except.error 0,
      getattrs := ({ major := fsal_errors_t.ERR_FSAL_NO_ERROR, minor := 0 },
                   { asked_attributes := 0, attr_values := 0 }) }
    { data_vfs_handle := { handle_bytes := 48, handle := [9] } }
    { name := "a" }
    { export_context_root_handle := { handle_bytes := 9, handle := [4] } }
    { data_vfs_handle := { handle_bytes := 7, handle := [1] } }
    none 3
    { st_type := fsal_nodetype.FSAL_TYPE_JUNCTION, st_ino := 11 }
    rfl rfl

/-- C7: for a parent that opens, stats as a live directory, and passes the
traversal access check, a name lookup failing with ENOENT yields the
NotFound error (through the spec-modelled `posix2fsal_error`), never
StaleHandle. -/
theorem C7_missing_name_is_notfound (env : LookupEnv)
    (parent : vfsfsal_handle_t) (fname : fsal_name_t)
    (ctx : vfsfsal_op_context_t) (oh : vfsfsal_handle_t)
    (poa : Option fsal_attrib_list_t) (fd : Nat) (st : stat_buf)
    (h1 : env.handle2fd = Except.ok fd)
    (h2 : env.fstat = Except.ok st)
    (h3 : st.st_type = fsal_nodetype.FSAL_TYPE_DIR)
    (h4 : FSAL_IS_ERROR env.testAccess = false)
    (h5 : env.name_by_handle = Except.error ENOENT) :
    (VFSFSAL_lookup env (some parent) (some fname) (some ctx) (some oh)
        poa).status.major = fsal_errors_t.ERR_FSAL_NOENT ∧
    (VFSFSAL_lookup env (some parent) (some fname) (some ctx) (some oh)
        poa).status.major ≠ fsal_errors_t.ERR_FSAL_STALE := by
  rw [lookup_main_eq, open_parent_eq env oh poa fd st h1 h2, h3, kind_dir_eq,
      dir_name_error_eq env oh poa fd ENOENT h4 h5]
  exact ⟨rfl,
    by show posix2fsal_error ENOENT ≠ fsal_errors_t.ERR_FSAL_STALE; decide⟩

/-- Witness for C7 at a concrete input: directory parent, access granted,
lookup fails with ENOENT; the status is NotFound and not StaleHandle. -/
theorem C7_missing_name_is_notfound_witness :
    (VFSFSAL_lookup
        { handle2fd := Except.ok 3,
          fstat := Except.ok { st_type := fsal_nodetype.FSAL_TYPE_DIR,
                               st_ino := 11 },
          errsv := 0,
          testAccess := { major := fsal_errors_t.ERR_FSAL_NO_ERROR, minor := 0 },
          name_by_handle := Except.error ENOENT,
          getattrs := ({ major := fsal_errors_t.ERR_FSAL_NO_ERROR, minor := 0 },
                       { asked_attributes := 0, attr_values := 0 }) }
        (some { data_vfs_handle := { handle_bytes := 48, handle := [9] } })
        (some { name := "a" })
        (some { export_context_root_handle := { handle_bytes := 9,
                                                handle := [4] } })
        (some { data_vfs_handle := { handle_bytes := 7, handle := [1] } })
        none).status.major = fsal_errors_t.ERR_FSAL_NOENT ∧
    (VFSFSAL_lookup
        { handle2fd := Except.ok 3,
          fstat := Except.ok { st_type := fsal_nodetype.FSAL_TYPE_DIR,
                               st_ino := 11 },
          errsv := 0,
          testAccess := { major := fsal_errors_t.ERR_FSAL_NO_ERROR, minor := 0 },
          name_by_handle := Except.error ENOENT,
          getattrs := ({ major := fsal_errors_t.ERR_FSAL_NO_ERROR, minor := 0 },
                       { asked_attributes := 0, attr_values := 0 }) }
        (some { data_vfs_handle := { handle_bytes := 48, handle := [9] } })
        (some { name := "a" })
        (some { export_context_root_handle := { handle_bytes := 9,
                                                handle := [4] } })
        (some { data_vfs_handle := { handle_bytes := 7, handle := [1] } })
        none).status.major ≠ fsal_errors_t.ERR_FSAL_STALE :=
  C7_missing_name_is_notfound
    { handle2fd := Except.ok 3,
      fstat := Except.ok { st_type := fsal_nodetype.FSAL_TYPE_DIR,
                           st_ino := 11 },
      errsv := 0,
      testAccess := { major := fsal_errors_t.ERR_FSAL_NO_ERROR, minor := 0 },
      name_by_handle := Except.error ENOENT,
      getattrs := ({ major := fsal_errors_t.ERR_FSAL_NO_ERROR, minor := 0 },
                   { asked_attributes := 0, attr_values := 0 }) }
    { data_vfs_handle := { handle_bytes := 48, handle := [9] } }
    { name := "a" }
    { export_context_root_handle := { handle_bytes := 9, handle := [4] } }
    { data_vfs_handle := { handle_bytes := 7, handle := [1] } }
    none 3
    { st_type := fsal_nodetype.FSAL_TYPE_DIR, st_ino := 11 }
    rfl rfl rfl rfl rfl

/-- C8: when the target handle is obtained successfully but the subsequent
attribute fetch fails, both `VFSFSAL_lookup` and `VFSFSAL_lookupPath`
still return the no-error status with the valid new handle, and the
attribute mask is cleared and replaced by the single
`FSAL_ATTR_RDATTR_ERR` marker bit. -/
theorem C8_attr_fetch_failure_degrades_not_fails :
    (∀ (env : LookupEnv) (parent : vfsfsal_handle_t) (fname : fsal_name_t)
        (ctx : vfsfsal_op_context_t) (oh : vfsfsal_handle_t)
        (oa : fsal_attrib_list_t) (fd : Nat) (st : stat_buf)
        (nh : vfs_file_handle_t),
      env.handle2fd = Except.ok fd →
      env.fstat = Except.ok st →
      st.st_type = fsal_nodetype.FSAL_TYPE_DIR →
      FSAL_IS_ERROR env.testAccess = false →
      env.name_by_handle = Except.ok nh →
      FSAL_IS_ERROR env.getattrs.1 = true →
      (VFSFSAL_lookup env (some parent) (some fname) (some ctx) (some oh)
          (some oa)).status.major = fsal_errors_t.ERR_FSAL_NO_ERROR ∧
      (VFSFSAL_lookup env (some parent) (some fname) (some ctx) (some oh)
          (some oa)).object_handle = some { data_vfs_handle := nh } ∧
      (VFSFSAL_lookup env (some parent) (some fname) (some ctx) (some oh)
          (some oa)).object_attributes =
        some { env.getattrs.2 with
                 asked_attributes := FSAL_ATTR_RDATTR_ERR }) ∧
    (∀ (env : PathEnv) (pth : fsal_path_t) (ctx : vfsfsal_op_context_t)
        (oh : vfsfsal_handle_t) (oa : fsal_attrib_list_t)
        (nh : vfsfsal_handle_t),
      pth.path.data.head? = some '/' →
      env.path2handle = Except.ok nh →
      FSAL_IS_ERROR env.getattrs.1 = true →
      (VFSFSAL_lookupPath env (some pth) (some ctx) (some oh)
          (some oa)).status.major = fsal_errors_t.ERR_FSAL_NO_ERROR ∧
      (VFSFSAL_lookupPath env (some pth) (some ctx) (some oh)
          (some oa)).object_handle = some nh ∧
      (VFSFSAL_lookupPath env (some pth) (some ctx) (some oh)
          (some oa)).object_attributes =
        some { env.getattrs.2 with
                 asked_attributes := FSAL_ATTR_RDATTR_ERR }) := by
  constructor
  · intro env parent fname ctx oh oa fd st nh h1 h2 h3 h4 h5 h6
    rw [lookup_main_eq, open_parent_eq env oh (some oa) fd st h1 h2, h3,
        kind_dir_eq, dir_name_ok_eq env oh (some oa) fd nh h4 h5,
        attr_exit_some_err_eq env { data_vfs_handle := nh } oa _ h6]
    exact ⟨rfl, rfl, rfl⟩
  · intro env pth ctx oh oa nh h1 h2 h3
    rw [lookupPath_some_eq, path_body_ok_eq env oh pth (some oa) nh h1 h2,
        path_attr_exit_some_err_eq env nh oa h3]
    exact ⟨rfl, rfl, rfl⟩

/-- Witness for C8 at concrete inputs for both operations: the attribute
fetch fails with a stale status, yet each call succeeds with the new handle
and the marker-only mask. -/
theorem C8_attr_fetch_failure_degrades_not_fails_witness :
    ((VFSFSAL_lookup
        { handle2fd := Except.ok 3,
          fstat := Except.ok { st_type := fsal_nodetype.FSAL_TYPE_DIR,
                               st_ino := 11 },
          errsv := 0,
          testAccess := { major := fsal_errors_t.ERR_FSAL_NO_ERROR, minor := 0 },
          name_by_handle := Except.ok { handle_bytes := 48, handle := [5, 6] },
          getattrs := ({ major := fsal_errors_t.ERR_FSAL_STALE, minor := 2 },
                       { asked_attributes := 6, attr_values := 9 }) }
        (some { data_vfs_handle := { handle_bytes := 48, handle := [9] } })
        (some { name := "a" })
        (some { export_context_root_handle := { handle_bytes := 9,
                                                handle := [4] } })
        (some { data_vfs_handle := { handle_bytes := 7, handle := [1] } })
        (some { asked_attributes := 6, attr_values := 0 })).status.major =
        fsal_errors_t.ERR_FSAL_NO_ERROR ∧
      (VFSFSAL_lookup
        { handle2fd := Except.ok 3,
          fstat := Except.ok { st_type := fsal_nodetype.FSAL_TYPE_DIR,
                               st_ino := 11 },
          errsv := 0,
          testAccess := { major := fsal_errors_t.ERR_FSAL_NO_ERROR, minor := 0 },
          name_by_handle := Except.ok { handle_bytes := 48, handle := [5, 6] },
          getattrs := ({ major := fsal_errors_t.ERR_FSAL_STALE, minor := 2 },
                       { asked_attributes := 6, attr_values := 9 }) }
        (some { data_vfs_handle := { handle_bytes := 48, handle := [9] } })
        (some { name := "a" })
        (some { export_context_root_handle := { handle_bytes := 9,
                                                handle := [4] } })
        (some { data_vfs_handle := { handle_bytes := 7, handle := [1] } })
        (some { asked_attributes := 6, attr_values := 0 })).object_handle =
        some { data_vfs_handle := { handle_bytes := 48, handle := [5, 6] } } ∧
      (VFSFSAL_lookup
        { handle2fd := Except.ok 3,
          fstat := Except.ok { st_type := fsal_nodetype.FSAL_TYPE_DIR,
                               st_ino := 11 },
          errsv := 0,
          testAccess := { major := fsal_errors_t.ERR_FSAL_NO_ERROR, minor := 0 },
          name_by_handle := Except.ok { handle_bytes := 48, handle := [5, 6] },
          getattrs := ({ major := fsal_errors_t.ERR_FSAL_STALE, minor := 2 },
                       { asked_attributes := 6, attr_values := 9 }) }
        (some { data_vfs_handle := { handle_bytes := 48, handle := [9] } })
        (some { name := "a" })
        (some { export_context_root_handle := { handle_bytes := 9,
                                                handle := [4] } })
        (some { data_vfs_handle := { handle_bytes := 7, handle := [1] } })
        (some { asked_attributes := 6, attr_values := 0 })).object_attributes =
        some { asked_attributes := FSAL_ATTR_RDATTR_ERR, attr_values := 9 }) ∧
    ((VFSFSAL_lookupPath
        { path2handle :=
            Except.ok { data_vfs_handle := { handle_bytes := 48,
                                             handle := [5, 6] } },
          getattrs := ({ major := fsal_errors_t.ERR_FSAL_STALE, minor := 2 },
                       { asked_attributes := 6, attr_values := 9 }) }
        (some { path := "/x" })
        (some { export_context_root_handle := { handle_bytes := 9,
                                                handle := [4] } })
        (some { data_vfs_handle := { handle_bytes := 7, handle := [1] } })
        (some { asked_attributes := 6, attr_values := 0 })).status.major =
        fsal_errors_t.ERR_FSAL_NO_ERROR ∧
      (VFSFSAL_lookupPath
        { path2handle :=
            Except.ok { data_vfs_handle := { handle_bytes := 48,
                                             handle := [5, 6] } },
          getattrs := ({ major := fsal_errors_t.ERR_FSAL_STALE, minor := 2 },
                       { asked_attributes := 6, attr_values := 9 }) }
        (some { path := "/x" })
        (some { export_context_root_handle := { handle_bytes := 9,
                                                handle := [4] } })
        (some { data_vfs_handle := { handle_bytes := 7, handle := [1] } })
        (some { asked_attributes := 6, attr_values := 0 })).object_handle =
        some { data_vfs_handle := { handle_bytes := 48, handle := [5, 6] } } ∧
      (VFSFSAL_lookupPath
        { path2handle :=
            Except.ok { data_vfs_handle := { handle_bytes := 48,
                                             handle := [5, 6] } },
          getattrs := ({ major := fsal_errors_t.ERR_FSAL_STALE, minor := 2 },
                       { asked_attributes := 6, attr_values := 9 }) }
        (some { path := "/x" })
        (some { export_context_root_handle := { handle_bytes := 9,
                                                handle := [4] } })
        (some { data_vfs_handle := { handle_bytes := 7, handle := [1] } })
        (some { asked_attributes := 6, attr_values := 0 })).object_attributes =
        some { asked_attributes := FSAL_ATTR_RDATTR_ERR, attr_values := 9 }) :=
  ⟨C8_attr_fetch_failure_degrades_not_fails.1
      { handle2fd := Except.ok 3,
        fstat := Except.ok { st_type := fsal_nodetype.FSAL_TYPE_DIR,
                             st_ino := 11 },
        errsv := 0,
        testAccess := { major := fsal_errors_t.ERR_FSAL_NO_ERROR, minor := 0 },
        name_by_handle := Except.ok { handle_bytes := 48, handle := [5, 6] },
        getattrs := ({ major := fsal_errors_t.ERR_FSAL_STALE, minor := 2 },
                     { asked_attributes := 6, attr_values := 9 }) }
      { data_vfs_handle := { handle_bytes := 48, handle := [9] } }
      { name := "a" }
      { export_context_root_handle := { handle_bytes := 9, handle := [4] } }
      { data_vfs_handle := { handle_bytes := 7, handle := [1] } }
      { asked_attributes := 6, attr_values := 0 }
      3
      { st_type := fsal_nodetype.FSAL_TYPE_DIR, st_ino := 11 }
      { handle_bytes := 48, handle := [5, 6] }
      rfl rfl rfl rfl rfl rfl,
   C8_attr_fetch_failure_degrades_not_fails.2
      { path2handle :=
          Except.ok { data_vfs_handle := { handle_bytes := 48,
                                           handle := [5, 6] } },
        getattrs := ({ major := fsal_errors_t.ERR_FSAL_STALE, minor := 2 },
                     { asked_attributes := 6, attr_values := 9 }) }
      { path := "/x" }
      { export_context_root_handle := { handle_bytes := 9, handle := [4] } }
      { data_vfs_handle := { handle_bytes := 7, handle := [1] } }
      { asked_attributes := 6, attr_values := 0 }
      { data_vfs_handle := { handle_bytes := 48, handle := [5, 6] } }
      (by decide) rfl rfl⟩
